import Mathlib

/-!
Verification of the Group Membership & Policy Engine of the rdfm server.

The HTTP handler layer (`src/server/src/api/v1/groups.py`) is embedded
directly.  The store-side engine functions that the handlers call
(`_groups_db.modify_assignment`, `_groups_db.modify_package`,
`_groups_db.delete`, `_groups_db.update_policy`, `_groups_db.create`,
and the policy compiler `update.policy.create`) are not part of the
given sources; they are modelled from the specification and marked as
such in their doc comments.
-/

namespace Rdfm

/-- A JSON value, as carried by a request body (`request.json` in Flask). -/
inductive Json where
  | null : Json
  | bool (b : Bool) : Json
  | num (n : Int) : Json
  | str (s : String) : Json
  | arr (elems : List Json) : Json
  | obj (fields : List (String × Json)) : Json
deriving Repr

/-- A device record: its identifier and its current group membership
(`models.device`; `group_id` is an optional reference to one group). -/
structure Device where
  id : Nat
  groupId : Option Nat
deriving Repr, DecidableEq

/-- A group record as stored (`models.group.Group`): identifier, creation
timestamp, metadata (`info`), policy string and priority. -/
structure Group where
  id : Nat
  created : Nat
  info : Json
  policy : String
  priority : Nat
deriving Repr

/-- The abstract store: device records, group records, the set of existing
package identifiers (owned by the external package registry), and the
group-to-package assignment table. -/
structure StoreState where
  devices : List Device
  groups : List Group
  packages : List Nat
  assignedPackages : List (Nat × Nat)
deriving Repr

/-- `_groups_db.fetch_one`: look up a group record by identifier. -/
def groupFind (s : StoreState) (identifier : Nat) : Option Group :=
  s.groups.find? (fun g => g.id == identifier)

/-- Look up a device record by identifier. -/
def deviceFind (s : StoreState) (i : Nat) : Option Device :=
  s.devices.find? (fun d => d.id == i)

/-- `_groups_db.fetch_assigned`: the devices currently assigned to the
given group, computed from the device registry. -/
def fetch_assigned (s : StoreState) (gid : Nat) : List Device :=
  s.devices.filter (fun d => d.groupId == some gid)

/-- `_groups_db.fetch_assigned_packages`: the package identifiers currently
assigned to the given group. -/
def fetch_assigned_packages (s : StoreState) (gid : Nat) : List Nat :=
  (s.assignedPackages.filter (fun ap => ap.1 == gid)).map (fun ap => ap.2)

/-- The schema model returned to callers
(`rdfm.schema.v1.groups.Group`). -/
structure GroupSchema where
  id : Nat
  created : Nat
  packages : List Nat
  devices : List Nat
  metadata : Json
  policy : String
deriving Repr

/-- `model_to_schema` from `groups.py`: convert a database group model to
the schema model, fetching the device list and package list from the
store at conversion time. -/
def model_to_schema (s : StoreState) (group : Group) : GroupSchema :=
  { id := group.id
    created := group.created
    packages := fetch_assigned_packages s group.id
    devices := (fetch_assigned s group.id).map (fun device => device.id)
    metadata := group.info
    policy := group.policy }

/-- An HTTP-level outcome: status code plus the error detail string
(empty for plain success bodies). -/
structure Response where
  status : Nat
  message : String
deriving Repr, DecidableEq

/-! ## Policy compiler -/

/-- A compiled policy value. -/
inductive Policy where
  | noUpdate : Policy
  | exactMatch (version : String) : Policy
deriving Repr, DecidableEq

/-- Split a character list on commas, like `String.splitOn ","`. -/
def splitTokens : List Char → List String
  | [] => [""]
  | c :: cs =>
      let rest := splitTokens cs
      if c = ',' then "" :: rest
      else
        match rest with
        | [] => [String.mk [c]]
        | t :: ts => String.mk (c :: t.toList) :: ts

/-- Modelled from the spec: the Policy Compiler (`update.policy.create`),
whose implementation is not among the given sources.  A policy string is
a comma-separated sequence whose first token names a kind from a fixed
registry (`no_update` with no arguments, `exact_match` with one version
argument); unknown kinds and wrong arity are rejected with a
human-readable reason.  A single trailing empty token (produced by the
canonical trailing comma, as in the default string) is accepted as the
zero-argument form. -/
def compile (text : String) : Except String Policy :=
  match splitTokens text.toList with
  | "no_update" :: args =>
      if args = [] ∨ args = [""] then Except.ok Policy.noUpdate
      else Except.error "no_update takes no arguments"
  | "exact_match" :: args =>
      match args with
      | [v] =>
          if v = "" then Except.error "exact_match requires a version argument"
          else Except.ok (Policy.exactMatch v)
      | [v, ""] =>
          if v = "" then Except.error "exact_match requires a version argument"
          else Except.ok (Policy.exactMatch v)
      | _ => Except.error "exact_match takes exactly one version argument"
  | kind :: _ => Except.error ("unknown policy kind: " ++ kind)
  | [] => Except.error "empty policy string"

/-- Outcome of the Python call `update.policy.create(policy)`, keeping
track of the exception class raised on failure: the compiler signals a
rejected policy by raising `RuntimeError`, and any other exception class
escapes to the handler's outer `except Exception` guard. -/
inductive CompileOutcome where
  | ok (p : Policy) : CompileOutcome
  | runtimeError (reason : String) : CompileOutcome
  | otherExc (reason : String) : CompileOutcome
deriving Repr, DecidableEq

/-- The concrete compiler call: a rejected policy raises `RuntimeError`
carrying the reason. -/
def compileOutcome (text : String) : CompileOutcome :=
  match compile text with
  | Except.ok p => CompileOutcome.ok p
  | Except.error r => CompileOutcome.runtimeError r

/-! ## Membership engine (store side) -/

/-- An addition is valid when the device exists and currently has no
group assigned (even if its current group equals the target group, a
device with a group assigned is never a valid addition). -/
def additionValid (s : StoreState) (i : Nat) : Bool :=
  match deviceFind s i with
  | none => false
  | some d => d.groupId == none

/-- A removal is valid when the device exists and is currently assigned
to exactly the target group. -/
def removalValid (s : StoreState) (gid : Nat) (i : Nat) : Bool :=
  match deviceFind s i with
  | none => false
  | some d => d.groupId == some gid

/-- All membership checks, evaluated against the state before any
mutation. -/
def membershipOk (s : StoreState) (gid : Nat) (add remove : List Nat) : Bool :=
  add.all (additionValid s) && remove.all (removalValid s gid)

/-- Apply the additions: every device whose id is listed gets the target
group assigned. -/
def applyAdditions (s : StoreState) (gid : Nat) (add : List Nat) : StoreState :=
  { s with devices := s.devices.map (fun d =>
      if add.contains d.id then { d with groupId := some gid } else d) }

/-- Apply the removals: every device whose id is listed gets its group
cleared. -/
def applyRemovals (s : StoreState) (remove : List Nat) : StoreState :=
  { s with devices := s.devices.map (fun d =>
      if remove.contains d.id then { d with groupId := none } else d) }

/-- Modelled from the spec: `_groups_db.modify_assignment`, whose
implementation is not among the given sources.  All validation checks
are evaluated as a single atomic unit before any mutation; if any check
fails for any id the whole operation aborts with an error string and no
device record changes; otherwise additions are applied first, then
removals. -/
def modify_assignment (s : StoreState) (gid : Nat) (add remove : List Nat) :
    Option String × StoreState :=
  if membershipOk s gid add remove then
    (none, applyRemovals (applyAdditions s gid add) remove)
  else
    (some "device assignment conflict", s)

/-- `change_assigned` from `groups.py` (PATCH group devices): fetch the
group, return 404 when it does not exist, call `modify_assignment`, map
an error to 409 and success to 200. -/
def change_assigned (s : StoreState) (identifier : Nat) (add remove : List Nat) :
    Response × StoreState :=
  match groupFind s identifier with
  | none => (⟨404, "group does not exist"⟩, s)
  | some _ =>
    match modify_assignment s identifier add remove with
    | (some err, s2) => (⟨409, err⟩, s2)
    | (none, s2) => (⟨200, ""⟩, s2)

/-! ## Package assignment engine (store side) -/

/-- Modelled from the spec: `_groups_db.modify_package`, whose
implementation is not among the given sources.  Every package identifier
must reference an existing package, else the operation reports a
conflict; on success the group's package set is replaced by the supplied
sequence. -/
def modify_package (s : StoreState) (gid : Nat) (pkgs : List Nat) :
    Option String × StoreState :=
  if pkgs.all (fun p => s.packages.contains p) then
    (none, { s with assignedPackages :=
        s.assignedPackages.filter (fun ap => ap.1 != gid)
          ++ pkgs.map (fun p => (gid, p)) })
  else
    (some "package does not exist", s)

/-- `assign_package` from `groups.py` (POST group package): fetch the
group, return 404 when it does not exist, call `modify_package`, map an
error to 409 and success to 200. -/
def assign_package (s : StoreState) (identifier : Nat) (pkgs : List Nat) :
    Response × StoreState :=
  match groupFind s identifier with
  | none => (⟨404, "group does not exist"⟩, s)
  | some _ =>
    match modify_package s identifier pkgs with
    | (some err, s2) => (⟨409, err⟩, s2)
    | (none, s2) => (⟨200, ""⟩, s2)

/-! ## Policy assignment -/

/-- Modelled from the spec: `_groups_db.update_policy`, whose
implementation is not among the given sources.  Persists the given text
as the group's policy. -/
def setPolicy (s : StoreState) (gid : Nat) (text : String) : StoreState :=
  { s with groups := s.groups.map (fun g =>
      if g.id == gid then { g with policy := text } else g) }

/-- `update_policy` from `groups.py` (POST group policy), parameterised
by the behaviour of the compiler call: 404 when the group does not
exist; a `RuntimeError` from the compiler is caught and mapped to 400
with the reason surfaced; any other exception class escapes to the
handler's outer guard and is reported as 500; on success the submitted
string is persisted and 200 returned. -/
def update_policy_with (comp : String → CompileOutcome) (s : StoreState)
    (identifier : Nat) (policy : String) : Response × StoreState :=
  match groupFind s identifier with
  | none => (⟨404, "group does not exist"⟩, s)
  | some _ =>
    match comp policy with
    | CompileOutcome.runtimeError r =>
        (⟨400, "invalid policy: " ++ r⟩, s)
    | CompileOutcome.otherExc _ =>
        (⟨500, "group policy assignment failed"⟩, s)
    | CompileOutcome.ok _ =>
        (⟨200, ""⟩, setPolicy s identifier policy)

/-- `update_policy` with the concrete compiler. -/
def update_policy (s : StoreState) (identifier : Nat) (policy : String) :
    Response × StoreState :=
  update_policy_with compileOutcome s identifier policy

/-! ## Deletion -/

/-- Modelled from the spec: `_groups_db.delete`, whose implementation is
not among the given sources.  Fails (returns `false`) when the group's
derived device set is non-empty; otherwise removes the group record. -/
def db_delete (s : StoreState) (gid : Nat) : Bool × StoreState :=
  if (fetch_assigned s gid).isEmpty then
    (true, { s with groups := s.groups.filter (fun g => g.id != gid) })
  else
    (false, s)

/-- `delete_one` from `groups.py` (DELETE group): fetch the group, return
404 when it does not exist, call `delete`, map failure to 409 and
success to 200. -/
def delete_one (s : StoreState) (identifier : Nat) : Response × StoreState :=
  match groupFind s identifier with
  | none => (⟨404, "group does not exist"⟩, s)
  | some _ =>
    match db_delete s identifier with
    | (false, s2) => (⟨409, "group is still assigned to some devices"⟩, s2)
    | (true, s2) => (⟨200, ""⟩, s2)

/-! ## Creation -/

/-- Modelled from the spec: the identifier allocation done by
`_groups_db.create` — a fresh id never used by an existing group. -/
def freshId (s : StoreState) : Nat :=
  (s.groups.map (fun g => g.id)).foldr max 0 + 1

/-- Modelled from the spec: `_groups_db.create`, whose implementation is
not among the given sources.  Allocates an id for the new record and
stores it. -/
def db_create (s : StoreState) (g : Group) : Group × StoreState :=
  let g2 := { g with id := freshId s }
  (g2, { s with groups := s.groups ++ [g2] })

/-- `create` from `groups.py` (POST groups): build a group record with
`created` set to the current time, `info` set to the request metadata
verbatim, the default policy string and the default priority, store it,
and return its schema rendering computed from the post-insertion
store. -/
def create_group (s : StoreState) (now : Nat) (metadata : Json) :
    GroupSchema × StoreState :=
  let g : Group :=
    { id := 0, created := now, info := metadata,
      policy := "no_update,", priority := 25 }
  let r := db_create s g
  (model_to_schema r.2 r.1, r.2)

/-! ## Read-only handlers -/

/-- `fetch_one` from `groups.py`: the schema returned for one group, or
`none` for the 404 outcome. -/
def fetch_one_handler (s : StoreState) (identifier : Nat) : Option GroupSchema :=
  (groupFind s identifier).map (model_to_schema s)

/-- `fetch_all` from `groups.py`: every group's schema rendering. -/
def fetch_all_handler (s : StoreState) : List GroupSchema :=
  s.groups.map (model_to_schema s)

/-- The derived device view exactly as the spec words it: the set of
device ids whose `group_id` equals this group's id, computed from the
device registry. -/
def specDerivedDevices (s : StoreState) (gid : Nat) : List Nat :=
  s.devices.filterMap (fun d => if d.groupId = some gid then some d.id else none)

/-! ## Well-formedness -/

/-- Referential integrity of a store state: every assigned device group
and every package-assignment row references an existing group. -/
def wellFormedB (s : StoreState) : Bool :=
  s.devices.all (fun d =>
    match d.groupId with
    | none => true
    | some gid => s.groups.any (fun g => g.id == gid)) &&
  s.assignedPackages.all (fun ap => s.groups.any (fun g => g.id == ap.1))

/-! ## Operations as a step function -/

/-- One invocation of a mutating handler. -/
inductive Op where
  | opCreate (now : Nat) (metadata : Json) : Op
  | opDelete (gid : Nat) : Op
  | opMembership (gid : Nat) (add remove : List Nat) : Op
  | opPackages (gid : Nat) (pkgs : List Nat) : Op
  | opPolicy (gid : Nat) (text : String) : Op

/-- The store state after one handler invocation. -/
def applyOp (s : StoreState) : Op → StoreState
  | Op.opCreate now md => (create_group s now md).2
  | Op.opDelete gid => (delete_one s gid).2
  | Op.opMembership gid a r => (change_assigned s gid a r).2
  | Op.opPackages gid ps => (assign_package s gid ps).2
  | Op.opPolicy gid t => (update_policy s gid t).2

/-- The policy invariant: every stored group policy is the default string
or has passed compiler validation. -/
def PolicyInvariant (s : StoreState) : Prop :=
  ∀ g ∈ s.groups, g.policy = "no_update," ∨ (compile g.policy).isOk = true

/-! ## Sample store states used by the witness theorems -/

/-- A sample group holding one device. -/
def grpA : Group :=
  { id := 1, created := 0, info := Json.obj [], policy := "no_update,", priority := 25 }

/-- A sample group holding no devices. -/
def grpB : Group :=
  { id := 2, created := 0, info := Json.obj [], policy := "no_update,", priority := 25 }

/-- A sample store: device 1 unassigned, device 2 assigned to group 1,
package 7 existing and assigned to group 1. -/
def sEx : StoreState :=
  { devices := [{ id := 1, groupId := none }, { id := 2, groupId := some 1 }],
    groups := [grpA, grpB],
    packages := [7],
    assignedPackages := [(1, 7)] }

/-- A sample metadata payload. -/
def mdEx : Json := Json.obj [("description", Json.str "A test group")]

/-! ## Sanity checks on the compiler -/

/-- The compiler behaves as the spec's examples require: the default
string and an exact-match policy compile, an unknown kind is rejected. -/
theorem compile_examples :
    compile "no_update," = Except.ok Policy.noUpdate ∧
    compile "exact_match,v1" = Except.ok (Policy.exactMatch "v1") ∧
    (compile "bogus_kind,x").isOk = false ∧
    (compile "bogus").isOk = false :=
  ⟨rfl, rfl, by decide, by decide⟩

/-! ## C1: membership change -/

/-- C1: the membership-change operation returns 404 when the target
group does not exist; when the group exists but any validation check
fails for any id in the add or remove sets the whole operation returns
409 and the store — in particular every device's group assignment — is
left unchanged; it returns 200 exactly when every check passes. -/
theorem change_assigned_spec (s : StoreState) (gid : Nat) (add remove : List Nat) :
    (groupFind s gid = none →
      (change_assigned s gid add remove).1.status = 404 ∧
      (change_assigned s gid add remove).2 = s) ∧
    (∀ g, groupFind s gid = some g →
      (membershipOk s gid add remove = false →
        (change_assigned s gid add remove).1.status = 409 ∧
        (change_assigned s gid add remove).2 = s) ∧
      (membershipOk s gid add remove = true →
        (change_assigned s gid add remove).1.status = 200)) := by
  refine ⟨fun h => ?_, fun g hg => ⟨fun hm => ?_, fun hm => ?_⟩⟩
  · simp [change_assigned, h]
  · simp [change_assigned, hg, modify_assignment, hm]
  · simp [change_assigned, hg, modify_assignment, hm]

/-- Witness for C1 on the sample store: unknown group 5 gives 404;
adding device 2, which already has a group (the same group), gives 409
with the store untouched; adding the unassigned device 1 while removing
device 2 gives 200. -/
theorem change_assigned_spec_witness :
    ((change_assigned sEx 5 [] []).1.status = 404) ∧
    ((change_assigned sEx 1 [2] []).1.status = 409 ∧
      (change_assigned sEx 1 [2] []).2 = sEx) ∧
    ((change_assigned sEx 1 [1] [2]).1.status = 200) := by
  refine ⟨?_, ?_, ?_⟩
  · exact ((change_assigned_spec sEx 5 [] []).1 rfl).1
  · exact ((change_assigned_spec sEx 1 [2] []).2 grpA rfl).1 (by decide)
  · exact ((change_assigned_spec sEx 1 [1] [2]).2 grpA rfl).2 (by decide)

/-! ## C4: policy assignment -/

/-- Looking up the target group after `setPolicy` yields the same record
with the new policy text. -/
theorem find_setPolicy (gs : List Group) (gid : Nat) (text : String) :
    (gs.map (fun g => if g.id == gid then { g with policy := text } else g)).find?
        (fun g => g.id == gid) =
      (gs.find? (fun g => g.id == gid)).map (fun g => { g with policy := text }) := by
  induction gs with
  | nil => rfl
  | cons g gs ih =>
    cases hb : (g.id == gid)
    · simp only [List.map_cons, List.find?_cons, hb, if_false, Bool.false_eq_true,
        ite_false, ih]
    · simp only [List.map_cons, List.find?_cons, hb, if_true, ite_true]
      rfl

/-- C4: `update_policy` returns 404 when the group does not exist; when
the policy text fails to compile it returns 400 with the compiler's
reason embedded in the response message and the store unchanged; when
the text compiles it returns 200 and the group's stored policy becomes
exactly the submitted string. -/
theorem update_policy_spec (s : StoreState) (gid : Nat) (text : String) :
    (groupFind s gid = none →
      (update_policy s gid text).1.status = 404 ∧
      (update_policy s gid text).2 = s) ∧
    (∀ g, groupFind s gid = some g →
      (∀ r, compile text = Except.error r →
        (update_policy s gid text).1 = ⟨400, "invalid policy: " ++ r⟩ ∧
        (update_policy s gid text).2 = s) ∧
      (∀ p, compile text = Except.ok p →
        (update_policy s gid text).1.status = 200 ∧
        groupFind (update_policy s gid text).2 gid =
          some { g with policy := text })) := by
  refine ⟨fun h => ?_, fun g hg => ⟨fun r hr => ?_, fun p hp => ?_⟩⟩
  · simp [update_policy, update_policy_with, h]
  · simp [update_policy, update_policy_with, hg, compileOutcome, hr]
  · constructor
    · simp [update_policy, update_policy_with, hg, compileOutcome, hp]
    · simp only [update_policy, update_policy_with, hg, compileOutcome, hp]
      unfold groupFind setPolicy
      unfold groupFind at hg
      simp only [find_setPolicy, hg]
      rfl

/-- Witness for C4 on the sample store: unknown group 5 gives 404; the
unparsable text gives 400 carrying the compiler's reason with the store
unchanged; a valid text gives 200 and is persisted verbatim. -/
theorem update_policy_spec_witness :
    ((update_policy sEx 5 "exact_match,v1").1.status = 404) ∧
    ((update_policy sEx 1 "bogus").1 =
        ⟨400, "invalid policy: " ++ "unknown policy kind: bogus"⟩ ∧
      (update_policy sEx 1 "bogus").2 = sEx) ∧
    ((update_policy sEx 1 "exact_match,v1").1.status = 200 ∧
      groupFind (update_policy sEx 1 "exact_match,v1").2 1 =
        some { grpA with policy := "exact_match,v1" }) := by
  refine ⟨?_, ?_, ?_⟩
  · exact ((update_policy_spec sEx 5 "exact_match,v1").1 rfl).1
  · exact ((update_policy_spec sEx 1 "bogus").2 grpA rfl).1
      "unknown policy kind: bogus" rfl
  · exact ((update_policy_spec sEx 1 "exact_match,v1").2 grpA rfl).2
      (Policy.exactMatch "v1") rfl

/-! ## C9: exception-class mapping in update_policy -/

/-- C9: in `update_policy`, with the group present, a compiler failure
raised as `RuntimeError` is the only one mapped to 400; a compiler
failure of any other exception class reaches the handler's outer guard
and is reported as 500; in both cases the store — hence the group's
policy — is unchanged. -/
theorem update_policy_exception_spec (comp : String → CompileOutcome)
    (s : StoreState) (gid : Nat) (text : String) (g : Group)
    (hg : groupFind s gid = some g) :
    (∀ r, comp text = CompileOutcome.runtimeError r →
      (update_policy_with comp s gid text).1.status = 400 ∧
      (update_policy_with comp s gid text).2 = s) ∧
    (∀ r, comp text = CompileOutcome.otherExc r →
      (update_policy_with comp s gid text).1.status = 500 ∧
      (update_policy_with comp s gid text).2 = s) := by
  refine ⟨fun r hr => ?_, fun r hr => ?_⟩
  · simp [update_policy_with, hg, hr]
  · simp [update_policy_with, hg, hr]

/-- Witness for C9 on the sample store, with a compiler stub that raises
`RuntimeError` on the text "a" and another exception class otherwise. -/
theorem update_policy_exception_spec_witness :
    ((update_policy_with
        (fun t => if t = "a" then CompileOutcome.runtimeError "r"
                  else CompileOutcome.otherExc "o") sEx 1 "a").1.status = 400 ∧
      (update_policy_with
        (fun t => if t = "a" then CompileOutcome.runtimeError "r"
                  else CompileOutcome.otherExc "o") sEx 1 "a").2 = sEx) ∧
    ((update_policy_with
        (fun t => if t = "a" then CompileOutcome.runtimeError "r"
                  else CompileOutcome.otherExc "o") sEx 1 "b").1.status = 500 ∧
      (update_policy_with
        (fun t => if t = "a" then CompileOutcome.runtimeError "r"
                  else CompileOutcome.otherExc "o") sEx 1 "b").2 = sEx) := by
  refine ⟨?_, ?_⟩
  · exact (update_policy_exception_spec
      (fun t => if t = "a" then CompileOutcome.runtimeError "r"
                else CompileOutcome.otherExc "o") sEx 1 "a" grpA rfl).1 "r" rfl
  · exact (update_policy_exception_spec
      (fun t => if t = "a" then CompileOutcome.runtimeError "r"
                else CompileOutcome.otherExc "o") sEx 1 "b" grpA rfl).2 "o" rfl

/-! ## C5: package assignment -/

/-- Replacing a group's rows in the assignment table and reading them
back yields exactly the supplied package sequence. -/
theorem fetch_packages_replace (old : List (Nat × Nat)) (gid : Nat) (pkgs : List Nat) :
    ((old.filter (fun ap => ap.1 != gid) ++ pkgs.map (fun p => (gid, p))).filter
        (fun ap => ap.1 == gid)).map (fun ap => ap.2) = pkgs := by
  rw [List.filter_append]
  have h1 : (old.filter (fun ap => ap.1 != gid)).filter (fun ap => ap.1 == gid) = [] := by
    rw [List.filter_eq_nil_iff]
    intro a ha
    rcases List.mem_filter.mp ha with ⟨_, hne⟩
    simpa using hne
  have h2 : (pkgs.map (fun p => (gid, p))).filter (fun ap => ap.1 == gid) =
      pkgs.map (fun p => (gid, p)) := by
    rw [List.filter_eq_self]
    intro a ha
    rcases List.mem_map.mp ha with ⟨p, _, hp⟩
    subst hp
    simp
  rw [h1, h2, List.nil_append, List.map_map]
  simp

/-- C5: the package-assignment operation distinguishes a missing group
from a missing package: when the group does not exist it returns 404;
when the group exists but some referenced package does not it returns
409 — never 404 — with the store unchanged; when every package exists
it returns 200 and the group's package set is replaced by the supplied
sequence. -/
theorem assign_package_spec (s : StoreState) (gid : Nat) (pkgs : List Nat) :
    (groupFind s gid = none →
      (assign_package s gid pkgs).1.status = 404 ∧
      (assign_package s gid pkgs).2 = s) ∧
    (∀ g, groupFind s gid = some g →
      (pkgs.all (fun p => s.packages.contains p) = false →
        (assign_package s gid pkgs).1.status = 409 ∧
        (assign_package s gid pkgs).2 = s) ∧
      (pkgs.all (fun p => s.packages.contains p) = true →
        (assign_package s gid pkgs).1.status = 200 ∧
        fetch_assigned_packages (assign_package s gid pkgs).2 gid = pkgs)) := by
  refine ⟨fun h => ?_, fun g hg => ⟨fun hp => ?_, fun hp => ?_⟩⟩
  · simp [assign_package, h]
  · simp only [assign_package, hg, modify_package, hp]
    simp
  · have hred : (assign_package s gid pkgs).2 =
        { s with assignedPackages :=
            s.assignedPackages.filter (fun ap => ap.1 != gid)
              ++ pkgs.map (fun p => (gid, p)) } := by
      simp only [assign_package, hg, modify_package, hp]
      simp
    constructor
    · simp only [assign_package, hg, modify_package, hp]
      simp
    · rw [hred]
      exact fetch_packages_replace s.assignedPackages gid pkgs

/-- Witness for C5 on the sample store: unknown group 5 gives 404;
existing group 1 with the non-existent package 9 gives 409 with the
store unchanged; existing package 7 gives 200 and is read back. -/
theorem assign_package_spec_witness :
    ((assign_package sEx 5 [7]).1.status = 404) ∧
    ((assign_package sEx 1 [9]).1.status = 409 ∧
      (assign_package sEx 1 [9]).2 = sEx) ∧
    ((assign_package sEx 1 [7]).1.status = 200 ∧
      fetch_assigned_packages (assign_package sEx 1 [7]).2 1 = [7]) := by
  refine ⟨?_, ?_, ?_⟩
  · exact ((assign_package_spec sEx 5 [7]).1 rfl).1
  · exact ((assign_package_spec sEx 1 [9]).2 grpA rfl).1 (by decide)
  · exact ((assign_package_spec sEx 1 [7]).2 grpA rfl).2 (by decide)

/-! ## C6: group deletion -/

/-- C6: deletion returns 404 when the group is absent; when the group
exists but its derived device set is non-empty it returns 409 with the
store unchanged; when the device set is empty it returns 200 and the
group record is gone. -/
theorem delete_one_spec (s : StoreState) (gid : Nat) :
    (groupFind s gid = none →
      (delete_one s gid).1.status = 404 ∧ (delete_one s gid).2 = s) ∧
    (∀ g, groupFind s gid = some g →
      ((fetch_assigned s gid).isEmpty = false →
        (delete_one s gid).1.status = 409 ∧ (delete_one s gid).2 = s) ∧
      ((fetch_assigned s gid).isEmpty = true →
        (delete_one s gid).1.status = 200 ∧
        groupFind (delete_one s gid).2 gid = none)) := by
  refine ⟨fun h => ?_, fun g hg => ⟨fun hd => ?_, fun hd => ?_⟩⟩
  · simp [delete_one, h]
  · simp [delete_one, hg, db_delete, hd]
  · constructor
    · simp [delete_one, hg, db_delete, hd]
    · simp only [delete_one, hg, db_delete, hd, if_true, ite_true]
      rw [groupFind, List.find?_eq_none]
      intro x hx
      rcases List.mem_filter.mp hx with ⟨_, hne⟩
      simpa using hne

/-- Witness for C6 on the sample store: unknown group 5 gives 404;
group 1 still holds device 2 so deleting it gives 409 with the store
unchanged; group 2 holds no devices so deleting it gives 200 and the
record is gone. -/
theorem delete_one_spec_witness :
    ((delete_one sEx 5).1.status = 404) ∧
    ((delete_one sEx 1).1.status = 409 ∧ (delete_one sEx 1).2 = sEx) ∧
    ((delete_one sEx 2).1.status = 200 ∧
      groupFind (delete_one sEx 2).2 2 = none) := by
  refine ⟨?_, ?_, ?_⟩
  · exact ((delete_one_spec sEx 5).1 rfl).1
  · exact ((delete_one_spec sEx 1).2 grpA rfl).1 (by decide)
  · exact ((delete_one_spec sEx 2).2 grpB rfl).2 (by decide)

/-! ## C3: the policy invariant -/

/-- A membership change never touches the stored group records. -/
theorem change_assigned_groups (s : StoreState) (gid : Nat) (a r : List Nat) :
    (change_assigned s gid a r).2.groups = s.groups := by
  cases hf : groupFind s gid with
  | none => simp [change_assigned, hf]
  | some g =>
    cases hm : membershipOk s gid a r
    · simp [change_assigned, hf, modify_assignment, hm]
    · simp [change_assigned, hf, modify_assignment, hm,
        applyRemovals, applyAdditions]

/-- A package assignment never touches the stored group records. -/
theorem assign_package_groups (s : StoreState) (gid : Nat) (ps : List Nat) :
    (assign_package s gid ps).2.groups = s.groups := by
  cases hf : groupFind s gid with
  | none => simp [assign_package, hf]
  | some g =>
    cases hm : ps.all (fun p => s.packages.contains p)
    · simp only [assign_package, hf, modify_package, hm]
      simp
    · simp only [assign_package, hf, modify_package, hm]
      simp

/-- Deletion only removes group records, never alters one. -/
theorem delete_one_groups_sub (s : StoreState) (gid : Nat) (g : Group)
    (hg : g ∈ (delete_one s gid).2.groups) : g ∈ s.groups := by
  cases hf : groupFind s gid with
  | none =>
    simp only [delete_one, hf] at hg
    exact hg
  | some g0 =>
    cases he : (fetch_assigned s gid).isEmpty
    · simp only [delete_one, hf, db_delete, he] at hg
      simpa using hg
    · simp only [delete_one, hf, db_delete, he] at hg
      simp only [if_true, ite_true] at hg
      exact (List.mem_filter.mp hg).1

/-- Creation appends exactly one record carrying the default policy,
default priority and the supplied metadata. -/
theorem create_group_groups (s : StoreState) (now : Nat) (md : Json) :
    (create_group s now md).2.groups =
      s.groups ++ [{ id := freshId s, created := now, info := md,
                     policy := "no_update,", priority := 25 }] := by
  rfl

/-- A policy update leaves every group record either unchanged or
rewritten with a policy text that passed compilation. -/
theorem update_policy_groups_mem (s : StoreState) (gid : Nat) (text : String)
    (g2 : Group) (hg : g2 ∈ (update_policy s gid text).2.groups) :
    g2 ∈ s.groups ∨ (g2.policy = text ∧ (compile text).isOk = true) := by
  cases hf : groupFind s gid with
  | none =>
    simp only [update_policy, update_policy_with, hf] at hg
    exact Or.inl hg
  | some g0 =>
    cases hc : compile text with
    | error r =>
      simp only [update_policy, update_policy_with, hf, compileOutcome, hc] at hg
      exact Or.inl hg
    | ok p =>
      simp only [update_policy, update_policy_with, hf, compileOutcome, hc,
        setPolicy] at hg
      rcases List.mem_map.mp hg with ⟨g1, hmem, hfg⟩
      by_cases hid : (g1.id == gid) = true
      · right
        rw [if_pos hid] at hfg
        subst hfg
        exact ⟨rfl, rfl⟩
      · left
        rw [if_neg hid] at hfg
        subst hfg
        exact hmem

/-- C3: starting from any store satisfying the policy invariant — every
stored policy is the default string or passes compilation — any handler
invocation preserves the invariant; in particular a policy update whose
text fails to compile leaves the store, and hence every stored policy,
unchanged, so an unparsable policy string is never persisted. -/
theorem policy_invariant_spec (s : StoreState) (o : Op) (gid : Nat) (text : String)
    (h : PolicyInvariant s) :
    PolicyInvariant (applyOp s o) ∧
    ((compile text).isOk = false → (update_policy s gid text).2 = s) := by
  constructor
  · cases o with
    | opCreate now md =>
      intro g hg
      rw [applyOp, create_group_groups] at hg
      rcases List.mem_append.mp hg with h1 | h2
      · exact h g h1
      · left
        rw [List.mem_singleton.mp h2]
    | opDelete gid2 =>
      intro g hg
      exact h g (delete_one_groups_sub s gid2 g hg)
    | opMembership gid2 a r =>
      intro g hg
      rw [applyOp, change_assigned_groups] at hg
      exact h g hg
    | opPackages gid2 ps =>
      intro g hg
      rw [applyOp, assign_package_groups] at hg
      exact h g hg
    | opPolicy gid2 t =>
      intro g hg
      rcases update_policy_groups_mem s gid2 t g hg with h1 | h2
      · exact h g h1
      · right
        rw [h2.1]
        exact h2.2
  · intro hbad
    cases hf : groupFind s gid with
    | none => simp [update_policy, update_policy_with, hf]
    | some g0 =>
      cases hc : compile text with
      | error r =>
        simp [update_policy, update_policy_with, hf, compileOutcome, hc]
      | ok p =>
        rw [hc] at hbad
        cases hbad

/-- Witness for C3 on the sample store: its two groups carry the default
policy, a successful policy update preserves the invariant, and the
unparsable text "bogus" leaves the store unchanged. -/
theorem policy_invariant_spec_witness :
    PolicyInvariant (applyOp sEx (Op.opPolicy 1 "exact_match,v2")) ∧
    (update_policy sEx 1 "bogus").2 = sEx := by
  have hinv : PolicyInvariant sEx := by
    intro g hg
    have hor : g = grpA ∨ g = grpB := by simpa [sEx] using hg
    rcases hor with rfl | rfl
    · left; rfl
    · left; rfl
  have h := policy_invariant_spec sEx (Op.opPolicy 1 "exact_match,v2") 1 "bogus" hinv
  exact ⟨h.1, h.2 (by decide)⟩

/-! ## C7 and C10: group creation -/

/-- Every member of a list of naturals is bounded by the folded maximum. -/
theorem mem_le_foldr_max (l : List Nat) (x : Nat) (h : x ∈ l) :
    x ≤ l.foldr max 0 := by
  induction l with
  | nil => cases h
  | cons a l ih =>
    rcases List.mem_cons.mp h with rfl | h2
    · exact le_max_left _ _
    · exact le_trans (ih h2) (le_max_right _ _)

/-- The freshly allocated id is strictly larger than every stored
group id. -/
theorem group_id_lt_freshId (s : StoreState) (g : Group) (h : g ∈ s.groups) :
    g.id < freshId s :=
  Nat.lt_succ_of_le
    (mem_le_foldr_max (s.groups.map (fun g => g.id)) g.id
      (List.mem_map_of_mem _ h))

/-- Finding an id that no element of the prefix list carries reaches the
appended record. -/
theorem find_append_last (l : List Group) (g2 : Group) (gid : Nat)
    (h : ∀ g ∈ l, (g.id == gid) = false) (hg : (g2.id == gid) = true) :
    (l ++ [g2]).find? (fun g => g.id == gid) = some g2 := by
  induction l with
  | nil => simp [List.find?_cons, hg]
  | cons a l ih =>
    have ha := h a (List.mem_cons_self a l)
    simp only [List.cons_append, List.find?_cons, ha]
    exact ih (fun g hgl => h g (List.mem_cons_of_mem a hgl))

/-- No stored group record carries the fresh id. -/
theorem freshId_unused (s : StoreState) :
    ∀ g ∈ s.groups, (g.id == freshId s) = false := by
  intro g hgmem
  have := group_id_lt_freshId s g hgmem
  simp [Nat.ne_of_lt this]

/-- C7: creation yields a response whose `created` field is the supplied
current time, whose policy is the default string, whose metadata is the
payload verbatim and whose package and device sets are empty, while the
stored record carries the fresh id, the same fields and the default
priority 25. -/
theorem create_group_spec (s : StoreState) (now : Nat) (md : Json)
    (h : wellFormedB s = true) :
    (create_group s now md).1.created = now ∧
    (create_group s now md).1.policy = "no_update," ∧
    (create_group s now md).1.metadata = md ∧
    (create_group s now md).1.packages = [] ∧
    (create_group s now md).1.devices = [] ∧
    groupFind (create_group s now md).2 (freshId s) =
      some { id := freshId s, created := now, info := md,
             policy := "no_update,", priority := 25 } := by
  rw [wellFormedB, Bool.and_eq_true] at h
  obtain ⟨hdev, hpkg⟩ := h
  rw [List.all_eq_true] at hdev hpkg
  refine ⟨rfl, rfl, rfl, ?_, ?_, ?_⟩
  · show (s.assignedPackages.filter (fun ap => ap.1 == freshId s)).map
        (fun ap => ap.2) = []
    rw [List.filter_eq_nil_iff.mpr, List.map_nil]
    intro ap hap
    have hany := hpkg ap hap
    rw [List.any_eq_true] at hany
    rcases hany with ⟨g, hgmem, hgid⟩
    have hlt := group_id_lt_freshId s g hgmem
    rw [beq_iff_eq] at hgid
    simp [beq_iff_eq]
    omega
  · show (s.devices.filter (fun d => d.groupId == some (freshId s))).map
        (fun d => d.id) = []
    rw [List.filter_eq_nil_iff.mpr, List.map_nil]
    intro d hd
    intro hcontra
    rw [beq_iff_eq] at hcontra
    have hmatch := hdev d hd
    rw [hcontra] at hmatch
    rw [List.any_eq_true] at hmatch
    rcases hmatch with ⟨g, hgmem, hgid⟩
    have hlt := group_id_lt_freshId s g hgmem
    rw [beq_iff_eq] at hgid
    omega
  · rw [groupFind, create_group_groups]
    exact find_append_last s.groups _ (freshId s) (freshId_unused s) (by simp)

/-- Witness for C7 on the sample store with the sample metadata
payload. -/
theorem create_group_spec_witness :
    (create_group sEx 9 mdEx).1.created = 9 ∧
    (create_group sEx 9 mdEx).1.policy = "no_update," ∧
    (create_group sEx 9 mdEx).1.metadata = mdEx ∧
    (create_group sEx 9 mdEx).1.packages = [] ∧
    (create_group sEx 9 mdEx).1.devices = [] ∧
    groupFind (create_group sEx 9 mdEx).2 (freshId sEx) =
      some { id := freshId sEx, created := 9, info := mdEx,
             policy := "no_update,", priority := 25 } :=
  create_group_spec sEx 9 mdEx (by decide)

/-- C10: creation validates nothing about the metadata payload: for
every JSON value whatsoever, the value is stored verbatim as the new
group's metadata and echoed back verbatim in the creation response. -/
theorem create_metadata_verbatim_spec (s : StoreState) (now : Nat) (md : Json) :
    (create_group s now md).1.metadata = md ∧
    ∃ g, groupFind (create_group s now md).2 (freshId s) = some g ∧
      g.info = md := by
  constructor
  · rfl
  · have hfind : groupFind (create_group s now md).2 (freshId s) =
        some { id := freshId s, created := now, info := md,
               policy := "no_update,", priority := 25 } := by
      rw [groupFind, create_group_groups]
      exact find_append_last s.groups _ (freshId s) (freshId_unused s) (by simp)
    exact ⟨_, hfind, rfl⟩

/-! ## C8: derived device and package views -/

/-- The device list computed by filtering the registry equals the
spec-worded derived view. -/
theorem derived_devices_eq (ds : List Device) (gid : Nat) :
    (ds.filter (fun d => d.groupId == some gid)).map (fun d => d.id) =
      ds.filterMap (fun d => if d.groupId = some gid then some d.id else none) := by
  induction ds with
  | nil => rfl
  | cons d ds ih =>
    by_cases h : d.groupId = some gid
    · simp [List.filter_cons, List.filterMap_cons, h, ih]
    · simp [List.filter_cons, List.filterMap_cons, h, ih]

/-- C8: every group representation returned to callers — by fetch-one,
fetch-all, and the creation response — carries a `devices` field equal
to the derived set of device ids whose `group_id` equals the group's
id, and a `packages` field equal to the current assignment rows, both
computed from the store the response is built from, never from a stored
snapshot on the group record. -/
theorem derived_views_spec (s : StoreState) :
    (∀ gid sch, fetch_one_handler s gid = some sch →
      sch.devices = specDerivedDevices s gid ∧
      sch.packages = fetch_assigned_packages s gid) ∧
    (∀ sch ∈ fetch_all_handler s, sch.devices = specDerivedDevices s sch.id) ∧
    (∀ now md, (create_group s now md).1.devices =
      specDerivedDevices (create_group s now md).2 (freshId s)) := by
  refine ⟨fun gid sch hsch => ?_, fun sch hsch => ?_, fun now md => ?_⟩
  · rw [fetch_one_handler, Option.map_eq_some'] at hsch
    rcases hsch with ⟨g, hfind, hmodel⟩
    have hid : g.id = gid := by
      have := List.find?_some hfind
      rwa [beq_iff_eq] at this
    subst hmodel
    subst hid
    exact ⟨derived_devices_eq s.devices g.id, rfl⟩
  · rw [fetch_all_handler] at hsch
    rcases List.mem_map.mp hsch with ⟨g, _, hmodel⟩
    subst hmodel
    exact derived_devices_eq s.devices g.id
  · exact derived_devices_eq (create_group s now md).2.devices (freshId s)

/-- Witness for C8: the schema the fetch-one handler builds for group 1
of the sample store carries exactly the derived views. -/
theorem derived_views_spec_witness :
    (model_to_schema sEx grpA).devices = specDerivedDevices sEx 1 ∧
    (model_to_schema sEx grpA).packages = fetch_assigned_packages sEx 1 :=
  (derived_views_spec sEx).1 1 (model_to_schema sEx grpA) rfl

end Rdfm
